import Mathlib

/-!
Shallow embedding of the stroke-triage rules engine from
`assessment/models.py` (classes `Patient` and `StrokeAssessment`).

Conventions of the embedding:
- Django `DateTimeField` values are modelled as rational timestamps in
  seconds; a `timedelta` is the rational difference in seconds and
  `total_seconds()` is the identity on that difference.
- Nullable fields (`null=True`) are `Option` types; `None` is `none`.
- Python `round(x, 2)` is modelled as exact round-half-to-even to two
  decimal places on the rational value (`round2` below).
- Python truthiness matters in `get_time_since_lkw_hours`: the source
  guards with `if time_delta:`, which is falsy both for `None` and for a
  zero timedelta; the embedding reproduces both cases.
- `CharField` enumerations become inductive types (`LvoStatus`).
-/

inductive LvoStatus where
  | NOT_ASSESSED
  | PRESENT
  | ABSENT
  | UNKNOWN
deriving DecidableEq

/-- Patient record: the fields of `Patient` that the rules engine reads.
Timestamps are rational seconds; `weight_kg` is the decimal weight. -/
structure Patient where
  arrival_time : ℚ
  last_known_well_time : Option ℚ
  age : ℤ
  weight_kg : Option ℚ
  systolic_bp : Option ℤ
  diastolic_bp : Option ℤ

/-- Stroke assessment record: the fields of `StrokeAssessment` that the
rules engine reads. The 15 NIHSS sub-scores are independently nullable. -/
structure StrokeAssessment where
  assessment_time : ℚ
  nihss_1a_loc_alert : Option ℤ
  nihss_1b_loc_questions : Option ℤ
  nihss_1c_loc_commands : Option ℤ
  nihss_2_best_gaze : Option ℤ
  nihss_3_visual_field : Option ℤ
  nihss_4_facial_palsy : Option ℤ
  nihss_5a_motor_left_arm : Option ℤ
  nihss_5b_motor_right_arm : Option ℤ
  nihss_6a_motor_left_leg : Option ℤ
  nihss_6b_motor_right_leg : Option ℤ
  nihss_7_limb_ataxia : Option ℤ
  nihss_8_sensory : Option ℤ
  nihss_9_best_language : Option ℤ
  nihss_10_dysarthria : Option ℤ
  nihss_11_extinction_inattention : Option ℤ
  hemorrhage_present : Bool
  aspects_score : Option ℤ
  lvo_status : LvoStatus
  recent_surgery : Bool
  prior_stroke_head_trauma : Bool
  gi_urinary_hemorrhage : Bool
  low_platelets : Bool
  elevated_inr : Bool
  current_anticoagulant_use : Bool

/-- Round a rational to the nearest integer, ties to the even integer
(the rounding mode of Python `round`). -/
def roundHalfEvenInt (q : ℚ) : ℤ :=
  if q - ⌊q⌋ < 1/2 then ⌊q⌋
  else if (1 : ℚ)/2 < q - ⌊q⌋ then ⌊q⌋ + 1
  else if ⌊q⌋ % 2 = 0 then ⌊q⌋ else ⌊q⌋ + 1

/-- Python `round(q, 2)`: round half to even at two decimal places. -/
def round2 (q : ℚ) : ℚ := (roundHalfEvenInt (q * 100) : ℚ) / 100

/-- Embedding of `StrokeAssessment.calculate_time_since_lkw`: the source
returns `assessment_time - last_known_well_time` when the LKW time is set
(datetime objects are always truthy, so the guard is a None check),
else `None`. -/
def calculate_time_since_lkw (p : Patient) (a : StrokeAssessment) : Option ℚ :=
  match p.last_known_well_time with
  | some lkw => some (a.assessment_time - lkw)
  | none => none

/-- Embedding of `StrokeAssessment.get_time_since_lkw_hours`. The source
guard is `if time_delta:`, Python truthiness — falsy when the delta is
`None` AND when it is exactly the zero timedelta, so both give `None`;
otherwise `round(time_delta.total_seconds() / 3600, 2)`. -/
def get_time_since_lkw_hours (p : Patient) (a : StrokeAssessment) : Option ℚ :=
  match calculate_time_since_lkw p a with
  | some td => if td = 0 then none else some (round2 (td / 3600))
  | none => none

/-- Embedding of `StrokeAssessment.is_within_tpa_window`: true when the
hours since LKW are known and at most 4.5, else false. -/
def is_within_tpa_window (p : Patient) (a : StrokeAssessment) : Bool :=
  match get_time_since_lkw_hours p a with
  | some h => decide (h ≤ 4.5)
  | none => false

/-- Embedding of `StrokeAssessment.is_within_thrombectomy_window`: true
when the hours since LKW are known and at most 6, else false. -/
def is_within_thrombectomy_window (p : Patient) (a : StrokeAssessment) : Bool :=
  match get_time_since_lkw_hours p a with
  | some h => decide (h ≤ 6)
  | none => false

/-- List of the 15 NIHSS components, in the order the source sums them. -/
def nihss_components (a : StrokeAssessment) : List (Option ℤ) :=
  [ a.nihss_1a_loc_alert,
    a.nihss_1b_loc_questions,
    a.nihss_1c_loc_commands,
    a.nihss_2_best_gaze,
    a.nihss_3_visual_field,
    a.nihss_4_facial_palsy,
    a.nihss_5a_motor_left_arm,
    a.nihss_5b_motor_right_arm,
    a.nihss_6a_motor_left_leg,
    a.nihss_6b_motor_right_leg,
    a.nihss_7_limb_ataxia,
    a.nihss_8_sensory,
    a.nihss_9_best_language,
    a.nihss_10_dysarthria,
    a.nihss_11_extinction_inattention ]

/-- Accumulator loop of `calculate_nihss_total_score`: add each component
that has a value, and return `none` as soon as a component is missing. -/
def sumComponents : List (Option ℤ) → ℤ → Option ℤ
  | [], total => some total
  | none :: _, _ => none
  | some v :: rest, total => sumComponents rest (total + v)

/-- Embedding of `StrokeAssessment.calculate_nihss_total_score`. -/
def calculate_nihss_total_score (a : StrokeAssessment) : Option ℤ :=
  sumComponents (nihss_components a) 0

/-- Arm or leg motor points of the RACE score. The source sets the score
to 0, overwrites it with 1 when the worse side is at least 2, and
overwrites it with 2 when the worse side is at least 4. -/
def motorPoints (worse : ℤ) : ℤ :=
  if 4 ≤ worse then 2 else if 2 ≤ worse then 1 else 0

/-- Embedding of `StrokeAssessment.calculate_race_score`. Each component
contributes points when its field is set (taking the max of the two sides
for arms and legs, or the single present side); after the sum is built the
source returns `None` when any of the 8 required components is missing. -/
def calculate_race_score (a : StrokeAssessment) : Option ℤ :=
  let facial : ℤ :=
    match a.nihss_4_facial_palsy with
    | some v => if v = 1 then 1 else if 2 ≤ v then 2 else 0
    | none => 0
  let arm : ℤ :=
    match a.nihss_5a_motor_left_arm, a.nihss_5b_motor_right_arm with
    | some l, some r => motorPoints (max l r)
    | some l, none => motorPoints l
    | none, some r => motorPoints r
    | none, none => 0
  let leg : ℤ :=
    match a.nihss_6a_motor_left_leg, a.nihss_6b_motor_right_leg with
    | some l, some r => motorPoints (max l r)
    | some l, none => motorPoints l
    | none, some r => motorPoints r
    | none, none => 0
  let gaze : ℤ :=
    match a.nihss_2_best_gaze with
    | some v => if v = 1 then 1 else if v = 2 then 2 else 0
    | none => 0
  let aphasia : ℤ :=
    match a.nihss_9_best_language with
    | some v => if 2 ≤ v then 2 else 0
    | none => 0
  let agnosia : ℤ :=
    match a.nihss_11_extinction_inattention with
    | some v => if 1 ≤ v then 1 else 0
    | none => 0
  if a.nihss_4_facial_palsy = none ∨
     a.nihss_5a_motor_left_arm = none ∨ a.nihss_5b_motor_right_arm = none ∨
     a.nihss_6a_motor_left_leg = none ∨ a.nihss_6b_motor_right_leg = none ∨
     a.nihss_2_best_gaze = none ∨
     a.nihss_9_best_language = none ∨
     a.nihss_11_extinction_inattention = none
  then none
  else some (facial + arm + leg + gaze + aphasia + agnosia)

/-- Embedding of `StrokeAssessment.get_aspects_interpretation`: the source
tests `is None`, then equality with 10, then the thresholds 8, 5 and 0 in
that order, and only values below 0 reach the final invalid branch. -/
def get_aspects_interpretation (a : StrokeAssessment) : String :=
  match a.aspects_score with
  | none => "ASPECTS score not available."
  | some s =>
    if s = 10 then "Normal CT scan (no early ischemic changes)."
    else if 8 ≤ s then "Mild early ischemic changes."
    else if 5 ≤ s then "Moderate early ischemic changes."
    else if 0 ≤ s then "Severe early ischemic changes (significant infarction)."
    else "Invalid ASPECTS score."

/-- Source condition `self.patient.systolic_bp is not None and
self.patient.systolic_bp > 185`. -/
def bpSystolicContra (p : Patient) : Bool :=
  match p.systolic_bp with
  | some s => decide (185 < s)
  | none => false

/-- Source condition `self.patient.diastolic_bp is not None and
self.patient.diastolic_bp > 110`. -/
def bpDiastolicContra (p : Patient) : Bool :=
  match p.diastolic_bp with
  | some d => decide (110 < d)
  | none => false

/-- Embedding of `StrokeAssessment.get_tpa_eligibility_status`: the chain
of early returns of the source, in source order. -/
def get_tpa_eligibility_status (p : Patient) (a : StrokeAssessment) : String :=
  if !(is_within_tpa_window p a) then "Not Eligible (Outside Time Window)"
  else if a.hemorrhage_present then "Contraindicated (Intracranial Hemorrhage)"
  else if bpSystolicContra p then "Contraindicated (BP > 185 mmHg)"
  else if bpDiastolicContra p then "Contraindicated (BP > 110 mmHg)"
  else if a.recent_surgery || a.prior_stroke_head_trauma || a.gi_urinary_hemorrhage then
    "Contraindicated (Major Bleeding Risk Factors)"
  else if a.low_platelets then "Contraindicated (Low Platelets)"
  else if a.elevated_inr then "Contraindicated (Elevated INR)"
  else if a.current_anticoagulant_use then "Contraindicated (Current Anticoagulant Use)"
  else "Potentially Eligible"

/-- Embedding of `StrokeAssessment.calculate_tpa_dose`: 0.9 mg per kg of
the patient weight, clamped to at most 90 mg; `None` without a weight. -/
def calculate_tpa_dose (p : Patient) : Option ℚ :=
  match p.weight_kg with
  | some w => some (min (w * (9/10)) 90)
  | none => none

/-- Embedding of `StrokeAssessment.get_thrombectomy_candidacy`: the chain
of early returns of the source, in source order. -/
def get_thrombectomy_candidacy (p : Patient) (a : StrokeAssessment) : String :=
  if !(is_within_thrombectomy_window p a) then "Not Candidate (Outside Time Window)"
  else if a.hemorrhage_present then "Not Candidate (Intracranial Hemorrhage)"
  else if a.lvo_status ≠ LvoStatus.PRESENT then "Not Candidate (No LVO Detected)"
  else
    match a.aspects_score with
    | none => "Pending (ASPECTS Score Missing)"
    | some s => if s < 6 then "Not Candidate (ASPECTS < 6)" else "Potentially Candidate"

/-- Baseline patient: arrived at time 0 with LKW at time 0, age 70,
weight 80 kg, blood pressure 150 over 90. -/
def pBase : Patient :=
  { arrival_time := 0
    last_known_well_time := some 0
    age := 70
    weight_kg := some 80
    systolic_bp := some 150
    diastolic_bp := some 90 }

/-- Patient whose last-known-well time was never recorded. -/
def pNoLkw : Patient := { pBase with last_known_well_time := none }

/-- Patient weighing 120 kg. -/
def pW120 : Patient := { pBase with weight_kg := some 120 }

/-- Patient weighing 50 kg. -/
def pW50 : Patient := { pBase with weight_kg := some 50 }

/-- Patient with no recorded weight. -/
def pNoWeight : Patient := { pBase with weight_kg := none }

/-- Patient whose last-known-well time (3600 s) lies after an assessment
taken at time 0. -/
def pFutureLkw : Patient := { pBase with last_known_well_time := some 3600 }

/-- Baseline assessment: taken 3 hours (10800 s) after time 0, every NIHSS
sub-score 0, no hemorrhage, ASPECTS 7, LVO present, no contraindication
flags. -/
def aBase : StrokeAssessment :=
  { assessment_time := 10800
    nihss_1a_loc_alert := some 0
    nihss_1b_loc_questions := some 0
    nihss_1c_loc_commands := some 0
    nihss_2_best_gaze := some 0
    nihss_3_visual_field := some 0
    nihss_4_facial_palsy := some 0
    nihss_5a_motor_left_arm := some 0
    nihss_5b_motor_right_arm := some 0
    nihss_6a_motor_left_leg := some 0
    nihss_6b_motor_right_leg := some 0
    nihss_7_limb_ataxia := some 0
    nihss_8_sensory := some 0
    nihss_9_best_language := some 0
    nihss_10_dysarthria := some 0
    nihss_11_extinction_inattention := some 0
    hemorrhage_present := false
    aspects_score := some 7
    lvo_status := LvoStatus.PRESENT
    recent_surgery := false
    prior_stroke_head_trauma := false
    gi_urinary_hemorrhage := false
    low_platelets := false
    elevated_inr := false
    current_anticoagulant_use := false }

/-- Assessment taken at time 0 (same instant as the baseline LKW time). -/
def aTimeZero : StrokeAssessment := { aBase with assessment_time := 0 }

/-- Assessment taken exactly 4.5 hours (16200 s) after time 0. -/
def aBoundary : StrokeAssessment := { aBase with assessment_time := 16200 }

/-- Assessment with hemorrhage on imaging. -/
def aHem : StrokeAssessment := { aBase with hemorrhage_present := true }

/-- Assessment with every NIHSS sub-score equal to 1. -/
def aAllOnes : StrokeAssessment :=
  { aBase with
    nihss_1a_loc_alert := some 1
    nihss_1b_loc_questions := some 1
    nihss_1c_loc_commands := some 1
    nihss_2_best_gaze := some 1
    nihss_3_visual_field := some 1
    nihss_4_facial_palsy := some 1
    nihss_5a_motor_left_arm := some 1
    nihss_5b_motor_right_arm := some 1
    nihss_6a_motor_left_leg := some 1
    nihss_6b_motor_right_leg := some 1
    nihss_7_limb_ataxia := some 1
    nihss_8_sensory := some 1
    nihss_9_best_language := some 1
    nihss_10_dysarthria := some 1
    nihss_11_extinction_inattention := some 1 }

/-- Assessment with the worst clinically valid values of every RACE
component: facial palsy 2, both arms 4, both legs 4, gaze 2, language 2,
extinction 1. -/
def aRaceMax : StrokeAssessment :=
  { aBase with
    nihss_4_facial_palsy := some 2
    nihss_5a_motor_left_arm := some 4
    nihss_5b_motor_right_arm := some 4
    nihss_6a_motor_left_leg := some 4
    nihss_6b_motor_right_leg := some 4
    nihss_2_best_gaze := some 2
    nihss_9_best_language := some 2
    nihss_11_extinction_inattention := some 1 }

/-- Assessment with the out-of-range ASPECTS value 11. -/
def aAspects11 : StrokeAssessment := { aBase with aspects_score := some 11 }

/-- Assessment with LVO ruled out and ASPECTS 3. -/
def aLvoAbsent : StrokeAssessment :=
  { aBase with lvo_status := LvoStatus.ABSENT, aspects_score := some 3 }

lemma roundHalfEvenInt_nonpos (q : ℚ) (hq : q < 0) : roundHalfEvenInt q ≤ 0 := by
  have hf : ⌊q⌋ < 0 := by
    rw [Int.floor_lt]
    exact_mod_cast hq
  unfold roundHalfEvenInt
  split_ifs <;> omega

lemma round2_nonpos (q : ℚ) (hq : q < 0) : round2 q ≤ 0 := by
  have h100 : q * 100 < 0 := mul_neg_of_neg_of_pos hq (by norm_num)
  have h := roundHalfEvenInt_nonpos (q * 100) h100
  have hcast : ((roundHalfEvenInt (q * 100) : ℤ) : ℚ) ≤ 0 := by exact_mod_cast h
  unfold round2
  exact div_nonpos_iff.mpr (Or.inr ⟨hcast, by norm_num⟩)

/-- Claim C4: `calculate_time_since_lkw` is `None` iff the LKW time is
unset, and `get_time_since_lkw_hours` is claimed `None` in exactly the same
cases, even when the difference is exactly zero. The code violates the
second half: with LKW time equal to the assessment time the delta is the
zero timedelta, which is falsy in Python, so the hours come back `None`
although the LKW time is set. This theorem exhibits the divergence. -/
theorem lkw_zero_delta_hours_bug :
    calculate_time_since_lkw pBase aTimeZero = some 0 ∧
    get_time_since_lkw_hours pBase aTimeZero = none := by
  constructor
  · simp [calculate_time_since_lkw, pBase, aTimeZero, aBase]
  · simp [get_time_since_lkw_hours, calculate_time_since_lkw, pBase, aTimeZero, aBase]

/-- Claim C6: `is_within_tpa_window` is true iff the hours since LKW are
known and at most 4.5; whenever the hours are known and at most 4.5 it is
true (boundary 4.50 included), whenever they exceed 4.5 it is false, and
whenever the LKW time is missing it is false rather than unknown. -/
theorem within_tpa_window_spec (p : Patient) (a : StrokeAssessment) :
    (is_within_tpa_window p a = true ↔
      ∃ h, get_time_since_lkw_hours p a = some h ∧ h ≤ 4.5) ∧
    (p.last_known_well_time = none → is_within_tpa_window p a = false) ∧
    (∀ h, get_time_since_lkw_hours p a = some h → h ≤ 4.5 →
      is_within_tpa_window p a = true) ∧
    (∀ h, get_time_since_lkw_hours p a = some h → 4.5 < h →
      is_within_tpa_window p a = false) := by
  refine ⟨?_, ?_, ?_, ?_⟩
  · unfold is_within_tpa_window
    cases hq : get_time_since_lkw_hours p a with
    | none => simp
    | some h => simp
  · intro hl
    simp [is_within_tpa_window, get_time_since_lkw_hours, calculate_time_since_lkw, hl]
  · intro h hq hle
    unfold is_within_tpa_window
    rw [hq]
    simpa using hle
  · intro h hq hgt
    unfold is_within_tpa_window
    rw [hq]
    simp only [decide_eq_false_iff_not]
    intro hc
    linarith

/-- Witness for C6: an assessment exactly 4.5 hours after LKW is inside
the window, and a patient without an LKW time is outside it. -/
theorem within_tpa_window_spec_witness :
    is_within_tpa_window pBase aBoundary = true ∧
    is_within_tpa_window pNoLkw aBase = false := by
  constructor
  · exact (within_tpa_window_spec pBase aBoundary).2.2.1 4.5
      (by norm_num [get_time_since_lkw_hours, calculate_time_since_lkw,
        round2, roundHalfEvenInt, pBase, aBoundary, aBase])
      (by norm_num)
  · exact (within_tpa_window_spec pNoLkw aBase).2.1 rfl

/-- Claim C9: whenever `is_within_tpa_window` is true,
`is_within_thrombectomy_window` is true as well, because both are derived
from the same hours value and 4.5 is below 6. -/
theorem tpa_window_subset_thrombectomy (p : Patient) (a : StrokeAssessment)
    (h : is_within_tpa_window p a = true) :
    is_within_thrombectomy_window p a = true := by
  unfold is_within_tpa_window at h
  unfold is_within_thrombectomy_window
  cases hq : get_time_since_lkw_hours p a with
  | none => rw [hq] at h; simp at h
  | some x =>
    rw [hq] at h
    simp at h ⊢
    linarith

/-- Witness for C9: the baseline patient assessed 3 hours after LKW is
inside the tPA window, hence inside the thrombectomy window. -/
theorem tpa_window_subset_thrombectomy_witness :
    is_within_thrombectomy_window pBase aBase = true :=
  tpa_window_subset_thrombectomy pBase aBase (by
    norm_num [is_within_tpa_window, get_time_since_lkw_hours,
      calculate_time_since_lkw, round2, roundHalfEvenInt, pBase, aBase])

/-- Claim C10: when the LKW time is set but lies strictly after the
assessment time, the elapsed hours are negative and both window
classifiers return true. -/
theorem negative_elapsed_within_windows (p : Patient) (a : StrokeAssessment)
    (t : ℚ) (hl : p.last_known_well_time = some t)
    (hgt : a.assessment_time < t) :
    is_within_tpa_window p a = true ∧
    is_within_thrombectomy_window p a = true := by
  have htd : calculate_time_since_lkw p a = some (a.assessment_time - t) := by
    unfold calculate_time_since_lkw
    rw [hl]
  have hneg : a.assessment_time - t < 0 := by linarith
  have hq : get_time_since_lkw_hours p a
      = some (round2 ((a.assessment_time - t) / 3600)) := by
    unfold get_time_since_lkw_hours
    rw [htd]
    simp [ne_of_lt hneg]
  have hdiv : (a.assessment_time - t) / 3600 < 0 :=
    div_neg_of_neg_of_pos hneg (by norm_num)
  have hr := round2_nonpos _ hdiv
  constructor
  · unfold is_within_tpa_window
    rw [hq]
    simp only [decide_eq_true_eq]
    linarith
  · unfold is_within_thrombectomy_window
    rw [hq]
    simp only [decide_eq_true_eq]
    linarith

/-- Witness for C10: LKW recorded at 3600 s, assessment at 0 s — one hour
in the future — and both windows report true. -/
theorem negative_elapsed_within_windows_witness :
    is_within_tpa_window pFutureLkw aTimeZero = true ∧
    is_within_thrombectomy_window pFutureLkw aTimeZero = true :=
  negative_elapsed_within_windows pFutureLkw aTimeZero 3600 rfl
    (by norm_num [aTimeZero, aBase, pFutureLkw])

lemma sumComponents_eq_none_iff (l : List (Option ℤ)) (acc : ℤ) :
    sumComponents l acc = none ↔ none ∈ l := by
  induction l generalizing acc with
  | nil => simp [sumComponents]
  | cons x rest ih =>
    cases x with
    | none => simp [sumComponents]
    | some v => simp [sumComponents, ih]

/-- Claim C5: the NIHSS total is `None` iff at least one of the 15
sub-scores is unset, and with all 15 set it is exactly their arithmetic
sum, with no clamping and never a partial sum. -/
theorem nihss_total_score_spec (a : StrokeAssessment) :
    (calculate_nihss_total_score a = none ↔
      (a.nihss_1a_loc_alert = none ∨ a.nihss_1b_loc_questions = none ∨
       a.nihss_1c_loc_commands = none ∨ a.nihss_2_best_gaze = none ∨
       a.nihss_3_visual_field = none ∨ a.nihss_4_facial_palsy = none ∨
       a.nihss_5a_motor_left_arm = none ∨ a.nihss_5b_motor_right_arm = none ∨
       a.nihss_6a_motor_left_leg = none ∨ a.nihss_6b_motor_right_leg = none ∨
       a.nihss_7_limb_ataxia = none ∨ a.nihss_8_sensory = none ∨
       a.nihss_9_best_language = none ∨ a.nihss_10_dysarthria = none ∨
       a.nihss_11_extinction_inattention = none)) ∧
    (∀ v1 v2 v3 v4 v5 v6 v7 v8 v9 v10 v11 v12 v13 v14 v15 : ℤ,
      a.nihss_1a_loc_alert = some v1 → a.nihss_1b_loc_questions = some v2 →
      a.nihss_1c_loc_commands = some v3 → a.nihss_2_best_gaze = some v4 →
      a.nihss_3_visual_field = some v5 → a.nihss_4_facial_palsy = some v6 →
      a.nihss_5a_motor_left_arm = some v7 → a.nihss_5b_motor_right_arm = some v8 →
      a.nihss_6a_motor_left_leg = some v9 → a.nihss_6b_motor_right_leg = some v10 →
      a.nihss_7_limb_ataxia = some v11 → a.nihss_8_sensory = some v12 →
      a.nihss_9_best_language = some v13 → a.nihss_10_dysarthria = some v14 →
      a.nihss_11_extinction_inattention = some v15 →
      calculate_nihss_total_score a =
        some (v1 + v2 + v3 + v4 + v5 + v6 + v7 + v8 +
              v9 + v10 + v11 + v12 + v13 + v14 + v15)) := by
  constructor
  · rw [calculate_nihss_total_score, sumComponents_eq_none_iff]
    simp [nihss_components, eq_comm]
  · intro v1 v2 v3 v4 v5 v6 v7 v8 v9 v10 v11 v12 v13 v14 v15
      h1 h2 h3 h4 h5 h6 h7 h8 h9 h10 h11 h12 h13 h14 h15
    simp only [calculate_nihss_total_score, nihss_components,
      h1, h2, h3, h4, h5, h6, h7, h8, h9, h10, h11, h12, h13, h14, h15,
      sumComponents]
    congr 1
    omega

/-- Witness for C5: with all 15 sub-scores equal to 1 the total is 15. -/
theorem nihss_total_score_spec_witness :
    calculate_nihss_total_score aAllOnes = some 15 := by
  have h := (nihss_total_score_spec aAllOnes).2 1 1 1 1 1 1 1 1 1 1 1 1 1 1 1
    rfl rfl rfl rfl rfl rfl rfl rfl rfl rfl rfl rfl rfl rfl rfl
  exact h.trans (by decide)

/-- Claim C2: claims the RACE total lies in [0, 9] whenever all 8 required
components are set. The implementation contradicts its own docstring
(which states the range 0 to 9): with the clinically valid inputs of
`aRaceMax` (facial palsy 2, both arms 4, both legs 4, gaze 2, language 2,
extinction 1) every component is set and the total is 11, because the gaze
branch contributes up to 2 points. -/
theorem race_score_exceeds_documented_range :
    calculate_race_score aRaceMax = some 11 := by decide

/-- Counterexample for C3: the claim sends every score above 10 to the
invalid text, but ASPECTS 11 satisfies the `8 or more` test, which is
checked before any upper bound, so the code answers the mild text. -/
theorem aspects_eleven_not_invalid :
    get_aspects_interpretation aAspects11 = "Mild early ischemic changes." ∧
    get_aspects_interpretation aAspects11 ≠ "Invalid ASPECTS score." := by
  exact ⟨rfl, by decide⟩

/-- Claim C3 as amended: unset maps to the not-available text, 10 to
normal, 8 and 9 to mild, 5 to 7 to moderate, 0 to 4 to severe, negative
values to invalid — and any value above 10 also maps to the mild text,
not to the invalid text. -/
theorem aspects_interpretation_spec (a : StrokeAssessment) :
    (a.aspects_score = none →
      get_aspects_interpretation a = "ASPECTS score not available.") ∧
    (a.aspects_score = some 10 →
      get_aspects_interpretation a = "Normal CT scan (no early ischemic changes).") ∧
    (∀ s, a.aspects_score = some s → 8 ≤ s → s ≤ 9 →
      get_aspects_interpretation a = "Mild early ischemic changes.") ∧
    (∀ s, a.aspects_score = some s → 5 ≤ s → s ≤ 7 →
      get_aspects_interpretation a = "Moderate early ischemic changes.") ∧
    (∀ s, a.aspects_score = some s → 0 ≤ s → s ≤ 4 →
      get_aspects_interpretation a = "Severe early ischemic changes (significant infarction).") ∧
    (∀ s, a.aspects_score = some s → s < 0 →
      get_aspects_interpretation a = "Invalid ASPECTS score.") ∧
    (∀ s, a.aspects_score = some s → 10 < s →
      get_aspects_interpretation a = "Mild early ischemic changes.") := by
  refine ⟨?_, ?_, ?_, ?_, ?_, ?_, ?_⟩
  · intro h
    simp [get_aspects_interpretation, h]
  · intro h
    simp [get_aspects_interpretation, h]
  · intro s hs h1 h2
    simp only [get_aspects_interpretation, hs]
    split_ifs <;> first | rfl | omega
  · intro s hs h1 h2
    simp only [get_aspects_interpretation, hs]
    split_ifs <;> first | rfl | omega
  · intro s hs h1 h2
    simp only [get_aspects_interpretation, hs]
    split_ifs <;> first | rfl | omega
  · intro s hs h1
    simp only [get_aspects_interpretation, hs]
    split_ifs <;> first | rfl | omega
  · intro s hs h1
    simp only [get_aspects_interpretation, hs]
    split_ifs <;> first | rfl | omega

/-- Witness for the amended C3: score 11 yields the mild text. -/
theorem aspects_interpretation_spec_witness :
    get_aspects_interpretation aAspects11 = "Mild early ischemic changes." :=
  (aspects_interpretation_spec aAspects11).2.2.2.2.2.2 11 rfl (by decide)

/-- Claim C8: the tPA dose is `None` iff the weight is unset; otherwise it
equals `min(weight * 0.9, 90)`, hence never exceeds 90 mg. -/
theorem tpa_dose_spec (p : Patient) :
    (calculate_tpa_dose p = none ↔ p.weight_kg = none) ∧
    (∀ w, p.weight_kg = some w →
      calculate_tpa_dose p = some (min (w * (9/10)) 90)) ∧
    (∀ d, calculate_tpa_dose p = some d → d ≤ 90) := by
  unfold calculate_tpa_dose
  cases hw : p.weight_kg with
  | none => simp
  | some w =>
    refine ⟨by simp, ?_, ?_⟩
    · intro w' hw'
      injection hw' with h
      subst h
      rfl
    · intro d hd
      rw [Option.some_inj] at hd
      rw [← hd]
      exact min_le_right _ _

/-- Witness for C8: 120 kg is clamped to 90 mg, 50 kg gives 45 mg, and a
missing weight gives no dose. -/
theorem tpa_dose_spec_witness :
    calculate_tpa_dose pW120 = some 90 ∧
    calculate_tpa_dose pW50 = some 45 ∧
    calculate_tpa_dose pNoWeight = none := by
  refine ⟨?_, ?_, ?_⟩
  · have h := (tpa_dose_spec pW120).2.1 120 rfl
    rw [h]
    norm_num [min_def]
  · have h := (tpa_dose_spec pW50).2.1 50 rfl
    rw [h]
    norm_num [min_def]
  · exact (tpa_dose_spec pNoWeight).1.mpr rfl

/-- Claim C1: `get_tpa_eligibility_status` applies its rules in source
order — time window, hemorrhage, systolic BP, diastolic BP, bleeding-risk
trio, platelets, INR, anticoagulant use, then potentially eligible — and
returns the string of the first matching rule; in particular an assessment
outside the window answers the outside-window string even with hemorrhage
present. -/
theorem tpa_eligibility_order (p : Patient) (a : StrokeAssessment) :
    (is_within_tpa_window p a = false →
      get_tpa_eligibility_status p a = "Not Eligible (Outside Time Window)") ∧
    (is_within_tpa_window p a = true → a.hemorrhage_present = true →
      get_tpa_eligibility_status p a = "Contraindicated (Intracranial Hemorrhage)") ∧
    (is_within_tpa_window p a = true → a.hemorrhage_present = false →
      bpSystolicContra p = true →
      get_tpa_eligibility_status p a = "Contraindicated (BP > 185 mmHg)") ∧
    (is_within_tpa_window p a = true → a.hemorrhage_present = false →
      bpSystolicContra p = false → bpDiastolicContra p = true →
      get_tpa_eligibility_status p a = "Contraindicated (BP > 110 mmHg)") ∧
    (is_within_tpa_window p a = true → a.hemorrhage_present = false →
      bpSystolicContra p = false → bpDiastolicContra p = false →
      (a.recent_surgery || a.prior_stroke_head_trauma || a.gi_urinary_hemorrhage) = true →
      get_tpa_eligibility_status p a = "Contraindicated (Major Bleeding Risk Factors)") ∧
    (is_within_tpa_window p a = true → a.hemorrhage_present = false →
      bpSystolicContra p = false → bpDiastolicContra p = false →
      (a.recent_surgery || a.prior_stroke_head_trauma || a.gi_urinary_hemorrhage) = false →
      a.low_platelets = true →
      get_tpa_eligibility_status p a = "Contraindicated (Low Platelets)") ∧
    (is_within_tpa_window p a = true → a.hemorrhage_present = false →
      bpSystolicContra p = false → bpDiastolicContra p = false →
      (a.recent_surgery || a.prior_stroke_head_trauma || a.gi_urinary_hemorrhage) = false →
      a.low_platelets = false → a.elevated_inr = true →
      get_tpa_eligibility_status p a = "Contraindicated (Elevated INR)") ∧
    (is_within_tpa_window p a = true → a.hemorrhage_present = false →
      bpSystolicContra p = false → bpDiastolicContra p = false →
      (a.recent_surgery || a.prior_stroke_head_trauma || a.gi_urinary_hemorrhage) = false →
      a.low_platelets = false → a.elevated_inr = false →
      a.current_anticoagulant_use = true →
      get_tpa_eligibility_status p a = "Contraindicated (Current Anticoagulant Use)") ∧
    (is_within_tpa_window p a = true → a.hemorrhage_present = false →
      bpSystolicContra p = false → bpDiastolicContra p = false →
      (a.recent_surgery || a.prior_stroke_head_trauma || a.gi_urinary_hemorrhage) = false →
      a.low_platelets = false → a.elevated_inr = false →
      a.current_anticoagulant_use = false →
      get_tpa_eligibility_status p a = "Potentially Eligible") ∧
    (is_within_tpa_window p a = false → a.hemorrhage_present = true →
      get_tpa_eligibility_status p a = "Not Eligible (Outside Time Window)") := by
  refine ⟨?_, ?_, ?_, ?_, ?_, ?_, ?_, ?_, ?_, ?_⟩
  · intro h1
    simp [get_tpa_eligibility_status, h1]
  · intro h1 h2
    simp [get_tpa_eligibility_status, h1, h2]
  · intro h1 h2 h3
    simp [get_tpa_eligibility_status, h1, h2, h3]
  · intro h1 h2 h3 h4
    simp [get_tpa_eligibility_status, h1, h2, h3, h4]
  · intro h1 h2 h3 h4 h5
    simp [get_tpa_eligibility_status, h1, h2, h3, h4, h5]
  · intro h1 h2 h3 h4 h5 h6
    simp [get_tpa_eligibility_status, h1, h2, h3, h4, h5, h6]
  · intro h1 h2 h3 h4 h5 h6 h7
    simp [get_tpa_eligibility_status, h1, h2, h3, h4, h5, h6, h7]
  · intro h1 h2 h3 h4 h5 h6 h7 h8
    simp [get_tpa_eligibility_status, h1, h2, h3, h4, h5, h6, h7, h8]
  · intro h1 h2 h3 h4 h5 h6 h7 h8
    simp [get_tpa_eligibility_status, h1, h2, h3, h4, h5, h6, h7, h8]
  · intro h1 _
    simp [get_tpa_eligibility_status, h1]

/-- Witness for C1: no LKW time (hence outside the window) together with
hemorrhage present still answers the outside-window string. -/
theorem tpa_eligibility_order_witness :
    get_tpa_eligibility_status pNoLkw aHem = "Not Eligible (Outside Time Window)" :=
  (tpa_eligibility_order pNoLkw aHem).2.2.2.2.2.2.2.2.2 rfl rfl

/-- Claim C7: `get_thrombectomy_candidacy` applies its rules in source
order — time window, hemorrhage, LVO status, ASPECTS missing, ASPECTS
below 6, then potentially candidate — and returns the string of the first
matching rule; in particular, inside the window with no hemorrhage, LVO
absent and ASPECTS 3 answer the no-LVO string because the LVO check
precedes the ASPECTS check. -/
theorem thrombectomy_candidacy_order (p : Patient) (a : StrokeAssessment) :
    (is_within_thrombectomy_window p a = false →
      get_thrombectomy_candidacy p a = "Not Candidate (Outside Time Window)") ∧
    (is_within_thrombectomy_window p a = true → a.hemorrhage_present = true →
      get_thrombectomy_candidacy p a = "Not Candidate (Intracranial Hemorrhage)") ∧
    (is_within_thrombectomy_window p a = true → a.hemorrhage_present = false →
      a.lvo_status ≠ LvoStatus.PRESENT →
      get_thrombectomy_candidacy p a = "Not Candidate (No LVO Detected)") ∧
    (is_within_thrombectomy_window p a = true → a.hemorrhage_present = false →
      a.lvo_status = LvoStatus.PRESENT → a.aspects_score = none →
      get_thrombectomy_candidacy p a = "Pending (ASPECTS Score Missing)") ∧
    (∀ s, is_within_thrombectomy_window p a = true → a.hemorrhage_present = false →
      a.lvo_status = LvoStatus.PRESENT → a.aspects_score = some s → s < 6 →
      get_thrombectomy_candidacy p a = "Not Candidate (ASPECTS < 6)") ∧
    (∀ s, is_within_thrombectomy_window p a = true → a.hemorrhage_present = false →
      a.lvo_status = LvoStatus.PRESENT → a.aspects_score = some s → 6 ≤ s →
      get_thrombectomy_candidacy p a = "Potentially Candidate") := by
  refine ⟨?_, ?_, ?_, ?_, ?_, ?_⟩
  · intro h1
    simp [get_thrombectomy_candidacy, h1]
  · intro h1 h2
    simp [get_thrombectomy_candidacy, h1, h2]
  · intro h1 h2 h3
    simp [get_thrombectomy_candidacy, h1, h2, h3]
  · intro h1 h2 h3 h4
    simp [get_thrombectomy_candidacy, h1, h2, h3, h4]
  · intro s h1 h2 h3 h4 h5
    simp [get_thrombectomy_candidacy, h1, h2, h3, h4, h5]
  · intro s h1 h2 h3 h4 h5
    simp [get_thrombectomy_candidacy, h1, h2, h3, h4, not_lt.mpr h5]

/-- Witness for C7: 3 hours since LKW, no hemorrhage, LVO absent and
ASPECTS 3 answer the no-LVO string. -/
theorem thrombectomy_candidacy_order_witness :
    get_thrombectomy_candidacy pBase aLvoAbsent = "Not Candidate (No LVO Detected)" :=
  (thrombectomy_candidacy_order pBase aLvoAbsent).2.2.1
    (by norm_num [is_within_thrombectomy_window, get_time_since_lkw_hours,
      calculate_time_since_lkw, round2, roundHalfEvenInt, pBase, aLvoAbsent, aBase])
    rfl (by decide)
